import Mathlib

/-!
Verification development for the Advantech PCI CAN driver
(advantech_can_pci.c, plus the in-progress multi-family draft under
drivers/net/can/sja1000/).  The definitions below are a shallow embedding
of the C source: pure register accessors become functions over a
byte-addressed register file, the probe/remove lifecycle becomes explicit
state passing over a bus/heap state together with an event trace, and the
static topology tables become Lean data.
-/

namespace AdvantechCan

/-! ## Register accessors

`adv_read_reg` / `adv_write_reg` from advantech_can_pci.c lines 74-82:

    static u8 adv_read_reg(const struct sja1000_priv *priv, int port)
    { return readb(priv->reg_base + 4 * port); }
    static void adv_write_reg(const struct sja1000_priv *priv, int port, u8 val)
    { writeb(val, priv->reg_base + 4 * port); }

`readb`/`writeb` are modelled over a byte-addressed register file
`RegFile : Nat → Nat`; `priv->reg_base` is the one field of `sja1000_priv`
the accessors use.  The `port` argument of the C accessors is the SJA1000
register index. -/

abbrev RegFile := Nat → Nat

structure Sja1000Priv where
  reg_base : Nat

def adv_read_reg (mem : RegFile) (priv : Sja1000Priv) (port : Nat) : Nat :=
  mem (priv.reg_base + 4 * port)

def adv_write_reg (mem : RegFile) (priv : Sja1000Priv) (port : Nat) (val : Nat) :
    RegFile :=
  fun a => if a = priv.reg_base + 4 * port then val else mem a

/-! ## Card topology table

From the draft file drivers/net/can/sja1000/advantech_can_pci.c,
lines 40-131: `enum board_id`, `struct card_data`, the static
`card_data[]` table and the PCI device-id table `adv_pci_tbl`.
C designated initializers leave unmentioned fields zero: the port-space
entries have `iolength = 0`, the memory-mapped entries have
`port_space = 0`. -/

inductive BoardId
  | pci_1680 | mic_3680 | uno_2052 | eamb_ph07
  | c001 | c002 | c004 | c101 | c102 | c104
  | c201 | c202 | c204 | c301 | c302 | c304
deriving DecidableEq, Repr

structure CardData where
  name : String
  ports : Nat
  iolength : Nat
  port_space : Nat
deriving DecidableEq, Repr

def card_data : BoardId → CardData
  | .pci_1680 => ⟨"PCI-1680", 2, 0, 1⟩
  | .mic_3680 => ⟨"MIC-3680", 2, 0, 1⟩
  | .uno_2052 => ⟨"UNO-2052(E)", 2, 0, 1⟩
  | .eamb_ph07 => ⟨"EAMB-PH07", 1, 0, 1⟩
  | .c001 => ⟨"C001 CAN card (1 PORT)", 1, 0x100, 0⟩
  | .c002 => ⟨"C002 CAN card (2 PORT)", 2, 0x100, 0⟩
  | .c004 => ⟨"C004 CAN card (4 PORT)", 4, 0x100, 0⟩
  | .c101 => ⟨"C101 CAN card (1 PORT,support CANopen)", 1, 0x100, 0⟩
  | .c102 => ⟨"C102 CAN card (2 PORT,support CANopen)", 2, 0x100, 0⟩
  | .c104 => ⟨"C104 CAN card (4 PORT,support CANopen)", 4, 0x100, 0⟩
  | .c201 => ⟨"C201 CAN card (1 PORT)", 1, 0x400, 0⟩
  | .c202 => ⟨"C202 CAN card (2 PORT)", 2, 0x400, 0⟩
  | .c204 => ⟨"C204 CAN card (4 PORT)", 4, 0x400, 0⟩
  | .c301 => ⟨"C301 CAN card (1 PORT,support CANopen)", 1, 0x400, 0⟩
  | .c302 => ⟨"C302, MIOe-3680 (2 PORT,support CANopen)", 2, 0x400, 0⟩
  | .c304 => ⟨"C304 CAN card (4 PORT,support CANopen)", 4, 0x400, 0⟩

/-- The PCI match table of the draft file: (PCI device id, board id). -/
def adv_pci_tbl : List (Nat × BoardId) :=
  [(0x1680, .pci_1680), (0x3680, .mic_3680), (0x2052, .uno_2052),
   (0x1681, .eamb_ph07),
   (0xc001, .c001), (0xc002, .c002), (0xc004, .c004),
   (0xc101, .c101), (0xc102, .c102), (0xc104, .c104),
   (0xc201, .c201), (0xc202, .c202), (0xc204, .c204),
   (0xc301, .c301), (0xc302, .c302), (0xc304, .c304)]

/-- The PCI match table of the built driver advantech_can_pci.c
(lines 62-71): device ids only, no board data. -/
def adv_pci_tbl_main : List Nat :=
  [0xc201, 0xc202, 0xc204, 0xc301, 0xc302, 0xc304]

/-- Port counts documented for the port-mapped families in the comments of
the draft file's `adv_pci_tbl` (lines 109-114): two ports on BAR 2 and 3
for 0x1680, 0x3680 and 0x2052; one port on BAR 2 for 0x1681. -/
def io_documented_ports : Nat → Nat
  | 0x1680 => 2
  | 0x3680 => 2
  | 0x2052 => 2
  | 0x1681 => 1
  | _ => 0

/-- Per-port base address of the memory-mapped layouts:
`priv->reg_base = card->bar_addr[0] + card_data->iolength * i` in the
draft probe (lines 266-267); the built driver hard-codes the same formula
with stride 0x400 (`card->can_addr + 0x400 * i`, line 158). -/
def port_base (bar0 : Nat) (cd : CardData) (i : Nat) : Nat :=
  bar0 + cd.iolength * i

/-! ## Attach/detach lifecycle of the built driver

`adv_probe` / `adv_remove` from advantech_can_pci.c lines 84-189, embedded
as explicit state passing over a bus/heap state `S` plus an event trace.
Heap objects (the card record, net devices, iomap cookies) are identified
by fresh numbers drawn from a counter; 0 plays the role of the NULL
`can_addr` left by `kzalloc`.  Freeing an object removes it from the live
sets but, like `kfree`, does not erase the record's stored contents and
does not clear the `pci_set_drvdata` pointer — both exactly as in the C.
Fallible externals (`pci_enable_device`, `kzalloc`, `pci_request_region`,
`pci_iomap`, `alloc_sja1000dev`, `register_sja1000dev`) are driven by a
fault environment `Faults`; their error codes are the ones the C uses or
propagates (-ENODEV = -19, -ENOMEM = -12; -EBUSY = -16 stands for the
error returned by a failing `pci_request_region`, -EINVAL = -22 for the
error returned by a failing `register_sja1000dev`). -/

inductive Ev
  | enableDev
  | disableDev
  | allocCard (c : Nat)
  | freeCard (c : Nat)
  | requestRegion (bar : Nat)
  | releaseRegion (bar : Nat)
  | iomap (addr : Nat)
  | iounmap (addr : Nat)
  | disableMsi
  | allocDev (d : Nat)
  | freeDev (d : Nat)
  | registerDev (d : Nat) (ok : Bool)
  | unregisterDev (d : Nat)
deriving DecidableEq, Repr

/-- Embedding of `struct adv_pci_card` of the built driver: the BAR 0 mapping cookie
(`can_addr`, 0 when NULL) and the four `net_dev` slots. -/
structure CardRec where
  can_addr : Nat
  net_dev : List (Option Nat)
deriving DecidableEq, Repr

/-- Bus/heap state threaded through probe and remove.  `cards`, `devs`,
`mappings`, `regions`, `registered` are the live sets the kernel tracks;
`cardRec` keeps the stored contents of every card record ever allocated
(reads of freed memory return the stale contents, as on real hardware);
`devRegBase` records the `priv->reg_base` written for each net device. -/
structure S where
  enabled : Bool
  drvdata : Option Nat
  cards : List Nat
  cardRec : Nat → CardRec
  regions : List Nat
  mappings : List Nat
  devs : List Nat
  registered : List Nat
  devRegBase : Nat → Nat
  nextId : Nat

def S.init : S :=
  { enabled := false, drvdata := none, cards := [],
    cardRec := fun _ => ⟨0, [none, none, none, none]⟩,
    regions := [], mappings := [], devs := [], registered := [],
    devRegBase := fun _ => 0, nextId := 1 }

/-- Nothing held: no enabled device, no live card record, no region
reservation, no mapping, no allocated or registered net device. -/
def S.clean (s : S) : Prop :=
  s.enabled = false ∧ s.cards = [] ∧ s.regions = [] ∧ s.mappings = [] ∧
  s.devs = [] ∧ s.registered = []

instance (s : S) : Decidable s.clean := by
  unfold S.clean
  infer_instance

/-- Injectable failures of the external calls probe makes, per attach
step (the per-port ones are indexed by the loop counter `i`). -/
structure Faults where
  enableFail : Bool
  allocCardFail : Bool
  requestRegionFail : Bool
  iomapFail : Bool
  allocDevFail : Nat → Bool
  registerFail : Nat → Bool

/-- The fault-free environment. -/
def noFaults : Faults :=
  { enableFail := false, allocCardFail := false, requestRegionFail := false,
    iomapFail := false, allocDevFail := fun _ => false,
    registerFail := fun _ => false }

/-- One iteration of `adv_remove`'s port loop (lines 90-97): a NULL slot
is skipped; a populated slot gets `unregister_sja1000dev` then
`free_sja1000dev`.  The loop reads the slots and never clears them. -/
def removePortsStep (s : S) (slot : Option Nat) : S × List Ev :=
  match slot with
  | none => (s, [])
  | some d =>
    ({ s with registered := s.registered.erase d, devs := s.devs.erase d },
     [Ev.unregisterDev d, Ev.freeDev d])

def removePorts (s : S) : List (Option Nat) → S × List Ev
  | [] => (s, [])
  | slot :: rest =>
    let out := removePortsStep s slot
    let out2 := removePorts out.1 rest
    (out2.1, out.2 ++ out2.2)

/-- Embedding of `adv_remove` (lines 84-105): tear down every populated port slot,
`pci_disable_msi`, `pci_iounmap(card->can_addr)`, `pci_disable_device`,
`pci_release_region(pdev, 0)`, `kfree(card)`.  The card record is looked
up through the drvdata pointer, which the C never clears; its stored
contents stay readable after the free. -/
def adv_remove (s : S) : S × List Ev :=
  match s.drvdata with
  | none => (s, [])
  | some c =>
    let cr := s.cardRec c
    let out := removePorts s cr.net_dev
    let s1 := out.1
    let s2 := { s1 with mappings := s1.mappings.erase cr.can_addr }
    let s3 := { s2 with enabled := false }
    let s4 := { s3 with regions := s3.regions.erase 0 }
    let s5 := { s4 with cards := s4.cards.erase c }
    (s5, out.2 ++ [Ev.disableMsi, Ev.iounmap cr.can_addr, Ev.disableDev,
                   Ev.releaseRegion 0, Ev.freeCard c])

/-- The port loop of `adv_probe` (lines 146-179), `i` the loop counter and
the fuel the number of remaining iterations (`(pdev->device & 0xf) - i`).
Per iteration: `alloc_sja1000dev` (failure: -ENOMEM, straight to the
cleanup label), store the device in `card->net_dev[i]`, set
`priv->reg_base = card->can_addr + 0x400 * i`, then
`register_sja1000dev`; on registration failure the C frees the device it
just allocated — without clearing `card->net_dev[i]` — and goes to the
cleanup label.  A `some err` result means `goto failure_cleanup` with that
error. -/
def probeLoop (f : Faults) (card : Nat) : Nat → Nat → S → Option Int × S × List Ev
  | _, 0, s => (none, s, [])
  | i, fuel + 1, s =>
    if f.allocDevFail i then (some (-12), s, [])
    else
      let d := s.nextId
      let s1 := { s with nextId := d + 1, devs := d :: s.devs }
      let cr := s1.cardRec card
      let s2 := { s1 with cardRec := fun x =>
        (if x = card then { cr with net_dev := cr.net_dev.set i (some d) }
         else s1.cardRec x) }
      let s3 := { s2 with devRegBase := fun x =>
        (if x = d then cr.can_addr + 0x400 * i else s2.devRegBase x) }
      if f.registerFail i then
        (some (-22), { s3 with devs := s3.devs.erase d },
         [Ev.allocDev d, Ev.registerDev d false, Ev.freeDev d])
      else
        let s4 := { s3 with registered := d :: s3.registered }
        let out := probeLoop f card (i + 1) fuel s4
        (out.1, out.2.1, Ev.allocDev d :: Ev.registerDev d true :: out.2.2)

/-- Embedding of `adv_probe` (lines 107-189): `pci_enable_device` (failure: -ENODEV,
nothing done), `kzalloc` the card record (failure: disable the device,
-ENOMEM), `pci_set_drvdata`, `pci_request_region(pdev, 0)`, `pci_iomap`
of BAR 0 (failure: -ENOMEM), then the per-port loop over the low nibble
of the PCI device id; every `goto failure_cleanup` runs `adv_remove` and
returns the error. -/
def adv_probe (f : Faults) (device : Nat) (s : S) : Int × S × List Ev :=
  if f.enableFail then (-19, s, [])
  else
    let s0 := { s with enabled := true }
    if f.allocCardFail then
      (-12, { s0 with enabled := false }, [Ev.enableDev, Ev.disableDev])
    else
      let c := s0.nextId
      let s1a := { s0 with
        nextId := c + 1,
        cards := c :: s0.cards,
        drvdata := some c }
      let s1 := { s1a with cardRec := fun x =>
        (if x = c then ⟨0, [none, none, none, none]⟩ else s1a.cardRec x) }
      let ev1 := [Ev.enableDev, Ev.allocCard c]
      if f.requestRegionFail then
        let out := adv_remove s1
        (-16, out.1, ev1 ++ out.2)
      else
        let s2 := { s1 with regions := 0 :: s1.regions }
        let ev2 := ev1 ++ [Ev.requestRegion 0]
        if f.iomapFail then
          let out := adv_remove s2
          (-12, out.1, ev2 ++ out.2)
        else
          let a := s2.nextId
          let s3 := { s2 with
            nextId := a + 1,
            mappings := a :: s2.mappings,
            cardRec := fun x =>
              (if x = c then { s2.cardRec c with can_addr := a }
               else s2.cardRec x) }
          let ev3 := ev2 ++ [Ev.iomap a]
          let out := probeLoop f c 0 (device % 16) s3
          match out.1 with
          | none => (0, out.2.1, ev3 ++ out.2.2)
          | some err =>
            let rem := adv_remove out.2.1
            (err, rem.1, ev3 ++ out.2.2 ++ rem.2)

/-! ## The draft file's I/O-region allocation helper

`adv_alloc_io` from drivers/net/can/sja1000/advantech_can_pci.c lines
143-154 (the file contains the identical definition twice, lines 143-154
and 156-167, and never calls it — its `port_space` probe branch is
empty).  The body is

    for (i = 0; i < card_data->ports; ++i) {
        err = pci_request_region(pdev, 2 + i, DRV_NAME);
        if (err) break;
    }
    return err;

`i` and `pdev` are not declared in that function; they are modelled as
the evident loop counter and the ambient device, whose region occupancy
is the oracle `busy`.  The result is (error, regions successfully
reserved, trace); the function contains no release call, so no
`releaseRegion` event can ever appear in its trace. -/
def adv_alloc_io_loop (busy : Nat → Bool) : Nat → Nat → Int × List Nat × List Ev
  | _, 0 => (0, [], [])
  | i, fuel + 1 =>
    if busy (2 + i) then (-16, [], [])
    else
      let out := adv_alloc_io_loop busy (i + 1) fuel
      (out.1, (2 + i) :: out.2.1, Ev.requestRegion (2 + i) :: out.2.2)

def adv_alloc_io (busy : Nat → Bool) (ports : Nat) : Int × List Nat × List Ev :=
  adv_alloc_io_loop busy 0 ports

/-! ## Helper lemmas about the teardown of live-resource lists -/

theorem removePorts_fst (slots : List (Option Nat)) (s : S) :
    (removePorts s slots).1
      = { s with devs := s.devs.diff (slots.filterMap id),
                 registered := s.registered.diff (slots.filterMap id) } := by
  induction slots generalizing s with
  | nil => simp [removePorts]
  | cons slot rest ih =>
    cases slot with
    | none => simp [removePorts, removePortsStep, ih]
    | some d => simp [removePorts, removePortsStep, ih, List.diff_cons]

theorem diff_self_nil (l : List Nat) : l.diff l = [] := by
  induction l with
  | nil => rfl
  | cons x t ih => rw [List.diff_cons, List.erase_cons_head]; exact ih

theorem diff_reverse_nil (l : List Nat) : l.reverse.diff l = [] := by
  have h := List.Perm.diff_right l (List.reverse_perm l)
  rw [diff_self_nil] at h
  exact h.eq_nil

theorem filterMap_id_replicate_none (k : Nat) :
    (List.replicate k (none : Option Nat)).filterMap id = [] := by
  induction k with
  | zero => rfl
  | succ n ih => rw [List.replicate_succ]; simpa using ih

theorem filterMap_slots (ds : List Nat) (k : Nat) :
    ((ds.map some ++ List.replicate k none).filterMap id) = ds := by
  induction ds with
  | nil => simpa using filterMap_id_replicate_none k
  | cons x t ih => simpa using ih

/-- The final state of `adv_remove` is clean whenever what is held is
exactly what the card record reaches: the record itself, the one mapping
named by `can_addr`, region 0, and net devices all listed in the slots. -/
theorem adv_remove_clean (s : S) (c a : Nat) (slots : List (Option Nat))
    (hdrv : s.drvdata = some c) (hrec : s.cardRec c = ⟨a, slots⟩)
    (hcards : s.cards = [c]) (hreg : s.regions = [0])
    (hmap : s.mappings = [a])
    (hdevs : s.devs.diff (slots.filterMap id) = [])
    (hregd : s.registered.diff (slots.filterMap id) = []) :
    ((adv_remove s).1).clean := by
  unfold adv_remove
  rw [hdrv]
  simp [removePorts_fst, hrec, S.clean, hcards, hreg, hmap, hdevs, hregd]

/-! ## The probe-loop invariant for arbitrary fault environments -/

/-- State shape at entry of iteration `ds.length` of `adv_probe`'s port
loop: the card record `c` with BAR 0 mapped at `a`, the devices `ds`
allocated and registered so far (in loop order), and the first
`ds.length` of the four `net_dev` slots filled with them. -/
structure Inv (c a : Nat) (ds : List Nat) (s : S) : Prop where
  enb : s.enabled = true
  drv : s.drvdata = some c
  cards : s.cards = [c]
  regions : s.regions = [0]
  mappings : s.mappings = [a]
  devs : s.devs = ds.reverse
  registered : s.registered = ds.reverse
  crec : s.cardRec c
    = ⟨a, ds.map some ++ List.replicate (4 - ds.length) none⟩

theorem slots_set (ds : List Nat) (d : Nat) (h : ds.length ≤ 3) :
    (ds.map some ++ List.replicate (4 - ds.length) none).set ds.length (some d)
      = (ds ++ [d]).map some ++ List.replicate (4 - (ds.length + 1)) none := by
  have h4 : 4 - ds.length = (3 - ds.length) + 1 := by omega
  have h3 : 4 - (ds.length + 1) = 3 - ds.length := by omega
  rw [h4, h3, List.replicate_succ]
  rw [List.set_append_right _ _ (by simp)]
  simp [List.set]

theorem probeLoop_spec (f : Faults) (c a : Nat) :
    ∀ (fuel i : Nat) (ds : List Nat) (s : S), Inv c a ds s → ds.length = i →
      i + fuel ≤ 4 → ∀ err, (probeLoop f c i fuel s).1 = some err →
      err < 0 ∧ ((adv_remove (probeLoop f c i fuel s).2.1).1).clean := by
  intro fuel
  induction fuel with
  | zero =>
    intro i ds s hinv hlen hle err herr
    simp [probeLoop] at herr
  | succ fuel ih =>
    intro i ds s hinv hlen hle err herr
    have hlen3 : ds.length ≤ 3 := by omega
    cases hA : f.allocDevFail i with
    | true =>
      simp only [probeLoop, hA, if_true] at herr ⊢
      obtain rfl : (-12 : Int) = err := by simpa using herr
      refine ⟨by decide, ?_⟩
      refine adv_remove_clean s c a _ hinv.drv hinv.crec hinv.cards
        hinv.regions hinv.mappings ?_ ?_ <;>
        simp [filterMap_slots, hinv.devs, hinv.registered, diff_reverse_nil]
    | false =>
      cases hR : f.registerFail i with
      | true =>
        simp only [probeLoop, hA, hR] at herr ⊢
        simp only [Bool.false_eq_true, if_false, if_true] at herr ⊢
        obtain rfl : (-22 : Int) = err := by simpa using herr
        refine ⟨by decide, ?_⟩
        refine adv_remove_clean _ c a
          ((ds ++ [s.nextId]).map some
            ++ List.replicate (4 - (ds.length + 1)) none)
          hinv.drv ?_ hinv.cards hinv.regions hinv.mappings ?_ ?_
        · simp [hinv.crec, ← hlen, slots_set ds s.nextId hlen3]
        · simp [filterMap_slots, List.erase_cons_head, hinv.devs,
            List.diff_append, diff_reverse_nil]
        · simp [filterMap_slots, hinv.registered, List.diff_append,
            diff_reverse_nil]
      | false =>
        simp only [probeLoop, hA, hR] at herr ⊢
        simp only [Bool.false_eq_true, if_false] at herr ⊢
        refine ih (i + 1) (ds ++ [s.nextId]) _ ?_ ?_ (by omega) err herr
        · refine ⟨hinv.enb, hinv.drv, hinv.cards, hinv.regions,
            hinv.mappings, ?_, ?_, ?_⟩
          · simp [hinv.devs]
          · simp [hinv.registered]
          · simp [hinv.crec, ← hlen, slots_set ds s.nextId hlen3]
        · simp [hlen]

/-- Any failing attach from the pristine state, under any fault
environment, returns a negative error with nothing left held. -/
theorem probe_fail_clean (f : Faults) (device : Nat)
    (hn : device % 16 ≤ 4) (hfail : (adv_probe f device S.init).1 ≠ 0) :
    (adv_probe f device S.init).1 < 0 ∧
    ((adv_probe f device S.init).2.1).clean := by
  cases h1 : f.enableFail with
  | true =>
    simp only [adv_probe, h1, if_true]
    exact ⟨by decide, by decide⟩
  | false =>
    cases h2 : f.allocCardFail with
    | true =>
      simp only [adv_probe, h1, h2, Bool.false_eq_true, if_false, if_true]
      exact ⟨by decide, by decide⟩
    | false =>
      cases h3 : f.requestRegionFail with
      | true =>
        simp only [adv_probe, h1, h2, h3, Bool.false_eq_true, if_false,
          if_true]
        exact ⟨by decide, by decide⟩
      | false =>
        cases h4 : f.iomapFail with
        | true =>
          simp only [adv_probe, h1, h2, h3, h4, Bool.false_eq_true, if_false,
            if_true]
          exact ⟨by decide, by decide⟩
        | false =>
          simp only [adv_probe, h1, h2, h3, h4, Bool.false_eq_true,
            if_false] at hfail ⊢
          split at hfail
          · exact absurd rfl hfail
          · rename_i err heq
            simp only [heq]
            exact probeLoop_spec f S.init.nextId (S.init.nextId + 1)
              (device % 16) 0 [] _
              ⟨rfl, rfl, rfl, rfl, rfl, rfl, rfl, by decide⟩
              rfl (by omega) err heq

/-! ## Arithmetic helper for address-range disjointness -/

theorem stride_no_overlap (s bar0 p r p' r' : Nat) (hr : 4 * r < s)
    (hr' : 4 * r' < s)
    (h : bar0 + s * p + 4 * r = bar0 + s * p' + 4 * r') : p = p' := by
  rcases Nat.lt_trichotomy p p' with hlt | heq | hgt
  · exfalso
    have h1 : s * p + s ≤ s * p' := by
      calc s * p + s = s * (p + 1) := by ring
        _ ≤ s * p' := Nat.mul_le_mul_left s hlt
    linarith
  · exact heq
  · exfalso
    have h1 : s * p' + s ≤ s * p := by
      calc s * p' + s = s * (p' + 1) := by ring
        _ ≤ s * p := Nat.mul_le_mul_left s hgt
    linarith

/-! ## Claim C3: accessor addressing and read-after-write round trip -/

/-- C3: for every memory-mapped layout, port `p` in range and register
index `r` in range, the read accessor returns the byte at
`port_base + 4*r`, the write accessor stores its value byte at
`port_base + 4*r`, and writing `v` to register `r` then reading register
`r` returns `v` against the register-file model. -/
theorem claim_C3_accessor_roundtrip (e : Nat × BoardId) (he : e ∈ adv_pci_tbl)
    (hmm : (card_data e.2).port_space = 0) (bar0 p r v : Nat) (mem : RegFile)
    (hp : p < (card_data e.2).ports) (hr : 4 * r < (card_data e.2).iolength) :
    adv_read_reg mem ⟨port_base bar0 (card_data e.2) p⟩ r
      = mem (port_base bar0 (card_data e.2) p + 4 * r) ∧
    adv_write_reg mem ⟨port_base bar0 (card_data e.2) p⟩ r v
      (port_base bar0 (card_data e.2) p + 4 * r) = v ∧
    adv_read_reg (adv_write_reg mem ⟨port_base bar0 (card_data e.2) p⟩ r v)
      ⟨port_base bar0 (card_data e.2) p⟩ r = v := by
  refine ⟨rfl, ?_, ?_⟩ <;> simp [adv_read_reg, adv_write_reg]

/-- Witness for C3 at the C302 (MIOe-3680) layout, port 1, register 2,
value 5, the all-zero register file. -/
theorem claim_C3_witness :
    (0xc302, BoardId.c302) ∈ adv_pci_tbl ∧
    (card_data BoardId.c302).port_space = 0 ∧
    1 < (card_data BoardId.c302).ports ∧
    4 * 2 < (card_data BoardId.c302).iolength ∧
    (adv_read_reg (fun _ => 0) ⟨port_base 0 (card_data BoardId.c302) 1⟩ 2
      = (fun _ => (0 : Nat)) (port_base 0 (card_data BoardId.c302) 1 + 4 * 2) ∧
    adv_write_reg (fun _ => 0) ⟨port_base 0 (card_data BoardId.c302) 1⟩ 2 5
      (port_base 0 (card_data BoardId.c302) 1 + 4 * 2) = 5 ∧
    adv_read_reg
      (adv_write_reg (fun _ => 0) ⟨port_base 0 (card_data BoardId.c302) 1⟩ 2 5)
      ⟨port_base 0 (card_data BoardId.c302) 1⟩ 2 = 5) :=
  ⟨by decide, by decide, by decide, by decide,
   claim_C3_accessor_roundtrip (0xc302, BoardId.c302) (by decide) (by decide)
     0 1 2 5 (fun _ => 0) (by decide) (by decide)⟩

/-! ## Claim C10: the write accessor is frame-preserving -/

/-- C10: the write accessor modifies exactly the one byte at
`reg_base + 4*r` — it stores `v` there and leaves every other address of
the register file unchanged — and the read accessor, a pure observation
of the register file in this embedding (`readb` has no side effect),
returns the byte at `reg_base + 4*r` without modifying anything. -/
theorem claim_C10_write_frame (priv : Sja1000Priv) (r v : Nat) (mem : RegFile)
    (a : Nat) (ha : a ≠ priv.reg_base + 4 * r) :
    adv_write_reg mem priv r v (priv.reg_base + 4 * r) = v ∧
    adv_write_reg mem priv r v a = mem a ∧
    adv_read_reg mem priv r = mem (priv.reg_base + 4 * r) := by
  refine ⟨?_, ?_, rfl⟩ <;> simp [adv_write_reg, ha]

/-- Witness for C10 at `reg_base = 8`, register 1, value 7, address 0. -/
theorem claim_C10_witness :
    (0 : Nat) ≠ (8 : Nat) + 4 * 1 ∧
    (adv_write_reg (fun _ => 3) ⟨8⟩ 1 7 (8 + 4 * 1) = 7 ∧
     adv_write_reg (fun _ => 3) ⟨8⟩ 1 7 0 = (fun _ => (3 : Nat)) 0 ∧
     adv_read_reg (fun _ => 3) ⟨8⟩ 1 = (fun _ => (3 : Nat)) (8 + 4 * 1)) :=
  ⟨by decide, claim_C10_write_frame ⟨8⟩ 1 7 (fun _ => 3) 0 (by decide)⟩

/-! ## Claim C5: port counts of the topology table -/

/-- C5: every supported variant has a port count in {1,2,3,4}; for the
memory-mapped families it equals the low nibble of the PCI device id, and
for the port-mapped families it equals the port count documented in the
match-table comments. -/
theorem claim_C5_ports_table (e : Nat × BoardId) (he : e ∈ adv_pci_tbl) :
    ((card_data e.2).ports = 1 ∨ (card_data e.2).ports = 2 ∨
     (card_data e.2).ports = 3 ∨ (card_data e.2).ports = 4) ∧
    ((card_data e.2).port_space = 0 → (card_data e.2).ports = e.1 % 16) ∧
    ((card_data e.2).port_space ≠ 0 →
      (card_data e.2).ports = io_documented_ports e.1) := by
  fin_cases he <;> refine ⟨by decide, by decide, by decide⟩

/-- Witness for C5 at the C204 four-port variant. -/
theorem claim_C5_witness :
    (0xc204, BoardId.c204) ∈ adv_pci_tbl ∧
    (((card_data BoardId.c204).ports = 1 ∨ (card_data BoardId.c204).ports = 2 ∨
      (card_data BoardId.c204).ports = 3 ∨ (card_data BoardId.c204).ports = 4) ∧
     ((card_data BoardId.c204).port_space = 0 →
       (card_data BoardId.c204).ports = 0xc204 % 16) ∧
     ((card_data BoardId.c204).port_space ≠ 0 →
       (card_data BoardId.c204).ports = io_documented_ports 0xc204)) :=
  ⟨by decide, claim_C5_ports_table (0xc204, BoardId.c204) (by decide)⟩

/-! ## Claim C4: per-port base addresses and range disjointness -/

/-- C4: for every memory-mapped layout the base address computed for port
`p` is `region_base + stride * p`, the stride is 0x400 for the c2xx/c3xx
family and 0x100 for the c0xx/c1xx family, and the register address
ranges of two different ports never overlap (an address collision of
in-range register offsets forces the ports to be equal). -/
theorem claim_C4_port_base_disjoint (e : Nat × BoardId) (he : e ∈ adv_pci_tbl)
    (hmm : (card_data e.2).port_space = 0) (bar0 p r p' r' : Nat)
    (hr : 4 * r < (card_data e.2).iolength)
    (hr' : 4 * r' < (card_data e.2).iolength)
    (hcollide : port_base bar0 (card_data e.2) p + 4 * r
      = port_base bar0 (card_data e.2) p' + 4 * r') :
    (card_data e.2).iolength = (if 0xc200 ≤ e.1 then 0x400 else 0x100) ∧
    port_base bar0 (card_data e.2) p = bar0 + (card_data e.2).iolength * p ∧
    p = p' := by
  refine ⟨?_, rfl, ?_⟩
  · fin_cases he <;> (revert hmm; decide)
  · exact stride_no_overlap (card_data e.2).iolength bar0 p r p' r' hr hr'
      (by simpa [port_base] using hcollide)

/-- Witness for C4 at the C302 layout, same port and register on both
sides of the collision hypothesis. -/
theorem claim_C4_witness :
    (0xc302, BoardId.c302) ∈ adv_pci_tbl ∧
    (card_data BoardId.c302).port_space = 0 ∧
    4 * 2 < (card_data BoardId.c302).iolength ∧
    port_base 0 (card_data BoardId.c302) 1 + 4 * 2
      = port_base 0 (card_data BoardId.c302) 1 + 4 * 2 ∧
    ((card_data BoardId.c302).iolength
       = (if 0xc200 ≤ (0xc302, BoardId.c302).1 then 0x400 else 0x100) ∧
     port_base 0 (card_data BoardId.c302) 1
       = 0 + (card_data BoardId.c302).iolength * 1 ∧
     (1 : Nat) = 1) :=
  ⟨by decide, by decide, by decide, rfl,
   claim_C4_port_base_disjoint (0xc302, BoardId.c302) (by decide) (by decide)
     0 1 2 1 2 (by decide) (by decide) rfl⟩

/-! ## Claim C1: every attach failure rolls everything back -/

/-- C1: for every attach attempt on a supported device under any fault
environment, a failure at any step returns a negative error and leaves
nothing held — no enabled device, no live card record, no region
reservation, no mapping, no allocated or registered instance.  Enable
failure returns -ENODEV with the state untouched and an empty trace;
card-allocation failure returns -ENOMEM having disabled the bus device;
every later failure unwinds all ports, mappings, reservations and the
record through the cleanup path. -/
theorem claim_C1_attach_failure_rollback (f : Faults) (device : Nat)
    (hdev : device ∈ adv_pci_tbl_main)
    (hfail : (adv_probe f device S.init).1 ≠ 0) :
    (adv_probe f device S.init).1 < 0 ∧
    ((adv_probe f device S.init).2.1).clean ∧
    (f.enableFail = true →
      (adv_probe f device S.init).1 = -19 ∧
      (adv_probe f device S.init).2.1 = S.init ∧
      (adv_probe f device S.init).2.2 = []) ∧
    (f.enableFail = false → f.allocCardFail = true →
      (adv_probe f device S.init).1 = -12 ∧
      (adv_probe f device S.init).2.1.enabled = false) := by
  have hn : device % 16 ≤ 4 := by fin_cases hdev <;> decide
  obtain ⟨hneg, hclean⟩ := probe_fail_clean f device hn hfail
  refine ⟨hneg, hclean, ?_, ?_⟩
  · intro h1
    simp [adv_probe, h1]
  · intro h1 h2
    simp [adv_probe, h1, h2]

/-- Witness for C1: a C201 attach whose bus-enable step fails. -/
theorem claim_C1_witness :
    (0xc201 : Nat) ∈ adv_pci_tbl_main ∧
    (adv_probe { noFaults with enableFail := true } 0xc201 S.init).1 ≠ 0 ∧
    ((adv_probe { noFaults with enableFail := true } 0xc201 S.init).1 < 0 ∧
     ((adv_probe { noFaults with enableFail := true } 0xc201 S.init).2.1).clean ∧
     (({ noFaults with enableFail := true } : Faults).enableFail = true →
       (adv_probe { noFaults with enableFail := true } 0xc201 S.init).1 = -19 ∧
       (adv_probe { noFaults with enableFail := true } 0xc201 S.init).2.1
         = S.init ∧
       (adv_probe { noFaults with enableFail := true } 0xc201 S.init).2.2
         = []) ∧
     (({ noFaults with enableFail := true } : Faults).enableFail = false →
       ({ noFaults with enableFail := true } : Faults).allocCardFail = true →
       (adv_probe { noFaults with enableFail := true } 0xc201 S.init).1
         = -12 ∧
       (adv_probe { noFaults with enableFail := true } 0xc201
         S.init).2.1.enabled = false)) :=
  ⟨by decide, by decide,
   claim_C1_attach_failure_rollback { noFaults with enableFail := true }
     0xc201 (by decide) (by decide)⟩

/-! ## Claim C7: attach immediately followed by detach leaks nothing -/

/-- C7: for every variant supported by the built driver, a fault-free
attach succeeds and an immediate detach returns the system to zero net
region reservations, zero net memory mappings and zero net allocated
controller instances. -/
theorem claim_C7_attach_detach_leak_free (device : Nat)
    (hdev : device ∈ adv_pci_tbl_main) :
    (adv_probe noFaults device S.init).1 = 0 ∧
    ((adv_remove (adv_probe noFaults device S.init).2.1).1).clean := by
  fin_cases hdev <;> exact ⟨rfl, by decide⟩

/-- Witness for C7 at the MIOe-3680 (device id 0xc302). -/
theorem claim_C7_witness :
    (0xc302 : Nat) ∈ adv_pci_tbl_main ∧
    ((adv_probe noFaults 0xc302 S.init).1 = 0 ∧
     ((adv_remove (adv_probe noFaults 0xc302 S.init).2.1).1).clean) :=
  ⟨by decide, claim_C7_attach_detach_leak_free 0xc302 (by decide)⟩

/-! ## Claim C8: detach ordering -/

/-- C8 counterexample: after a fault-free attach of a C201, the detach
trace has the exact event order of the code, in which
`pci_disable_device` comes BEFORE `pci_release_region(pdev, 0)` — so the
claimed order "release all Address-Space Handles ... then disable the bus
device" is false at this input. -/
theorem claim_C8_counterexample :
    (adv_remove (adv_probe noFaults 0xc201 S.init).2.1).2
      = [Ev.unregisterDev 3, Ev.freeDev 3, Ev.disableMsi, Ev.iounmap 2,
         Ev.disableDev, Ev.releaseRegion 0, Ev.freeCard 1] ∧
    Ev.disableDev ∈ (adv_remove (adv_probe noFaults 0xc201 S.init).2.1).2 ∧
    Ev.releaseRegion 0 ∈ (adv_remove (adv_probe noFaults 0xc201 S.init).2.1).2 ∧
    ((adv_remove (adv_probe noFaults 0xc201 S.init).2.1).2).indexOf Ev.disableDev
      < ((adv_remove (adv_probe noFaults 0xc201 S.init).2.1).2).indexOf
          (Ev.releaseRegion 0) := by
  decide

/-- C8 amended: detach tears down every populated port slot in increasing
slot order, unregistering each instance before freeing it; then it unmaps
the mapped region (the single region, so trivially in reverse acquisition
order); then it disables the bus device; then it releases the region
reservation; then it frees the card record. -/
theorem claim_C8_amended_order (device : Nat)
    (hdev : device ∈ adv_pci_tbl_main) :
    (adv_remove (adv_probe noFaults device S.init).2.1).2
      = ((List.range (device % 16)).flatMap
          (fun i => [Ev.unregisterDev (3 + i), Ev.freeDev (3 + i)]))
        ++ [Ev.disableMsi, Ev.iounmap 2, Ev.disableDev, Ev.releaseRegion 0,
            Ev.freeCard 1] := by
  fin_cases hdev <;> decide

/-- Witness for the amended C8 at the C202 two-port variant. -/
theorem claim_C8_amended_witness :
    (0xc202 : Nat) ∈ adv_pci_tbl_main ∧
    (adv_remove (adv_probe noFaults 0xc202 S.init).2.1).2
      = ((List.range (0xc202 % 16)).flatMap
          (fun i => [Ev.unregisterDev (3 + i), Ev.freeDev (3 + i)]))
        ++ [Ev.disableMsi, Ev.iounmap 2, Ev.disableDev, Ev.releaseRegion 0,
            Ev.freeCard 1] :=
  ⟨by decide, claim_C8_amended_order 0xc202 (by decide)⟩

/-! ## Claim C2: rollback after a failed registration -/

/-- C2 is violated by the code: attach a C201 with `register_sja1000dev`
failing at port 0.  `adv_probe` frees the just-allocated device (id 3)
but leaves `card->net_dev[0]` pointing at it, so the rollback through
`adv_remove` calls `unregister_sja1000dev` on a handle whose registration
never succeeded and frees the same handle a second time: the trace has no
successful registration of device 3, yet contains `unregisterDev 3` and
two `freeDev 3` events. -/
theorem claim_C2_register_fail_double_free :
    Ev.registerDev 3 true
      ∉ (adv_probe { noFaults with registerFail := fun i => i == 0 }
          0xc201 S.init).2.2 ∧
    Ev.registerDev 3 false
      ∈ (adv_probe { noFaults with registerFail := fun i => i == 0 }
          0xc201 S.init).2.2 ∧
    Ev.unregisterDev 3
      ∈ (adv_probe { noFaults with registerFail := fun i => i == 0 }
          0xc201 S.init).2.2 ∧
    ((adv_probe { noFaults with registerFail := fun i => i == 0 }
        0xc201 S.init).2.2).count (Ev.freeDev 3) = 2 := by
  decide

/-! ## Claim C9: detach idempotence -/

/-- C9 is violated by the code: after a fault-free attach of a C201 and a
first detach, `pci_set_drvdata` still holds the freed card pointer, so a
second detach walks the freed record again and re-issues the free of
device 3, the unmap of the mapping and the free of the card record —
a double-free and double-unmap. -/
theorem claim_C9_double_detach_double_free :
    ((adv_remove (adv_probe noFaults 0xc201 S.init).2.1).2).count
        (Ev.freeCard 1) = 1 ∧
    ((adv_remove
        (adv_remove (adv_probe noFaults 0xc201 S.init).2.1).1).2).count
        (Ev.freeCard 1) = 1 ∧
    ((adv_remove
        (adv_remove (adv_probe noFaults 0xc201 S.init).2.1).1).2).count
        (Ev.freeDev 3) = 1 ∧
    ((adv_remove
        (adv_remove (adv_probe noFaults 0xc201 S.init).2.1).1).2).count
        (Ev.iounmap 2) = 1 := by
  decide

/-! ## Claim C6: the port-mapped region reservation helper -/

/-- C6: the reservation loop of `adv_alloc_io` does request exactly the
region indices `2 + port`, so a 4-port card requests exactly 2, 3, 4, 5 —
but on a reservation failure it only breaks out and returns the error:
with 2 ports and region 3 busy it returns -EBUSY with region 2 still
reserved and no release event anywhere in its trace, violating the
release-before-failing half of the claim. -/
theorem claim_C6_alloc_io_no_release :
    adv_alloc_io (fun _ => false) 4
      = (0, [2, 3, 4, 5],
         [Ev.requestRegion 2, Ev.requestRegion 3, Ev.requestRegion 4,
          Ev.requestRegion 5]) ∧
    adv_alloc_io (fun b => b == 3) 2 = (-16, [2], [Ev.requestRegion 2]) ∧
    Ev.releaseRegion 2 ∉ (adv_alloc_io (fun b => b == 3) 2).2.2 := by
  decide

end AdvantechCan
